import Mathlib

/-
Verification of the AutomaticCircuit Sphero racer (src/AutomaticCircuit.py)
against its specification.

The Python program is shallowly embedded: floats become real numbers,
the vendor actuation API becomes an explicit command trace, and device
failures become an explicit fault oracle.  Every definition mirrors the
corresponding function of the source file; definitions that follow the
words of the specification rather than the source are marked as such in
their doc comments.
-/

namespace AutomaticCircuit

/-- Course width in cm, from SpheroRacer.__init__ (source line 26). -/
def COURSE_WIDTH : ℕ := 500

/-- Course height in cm, from SpheroRacer.__init__ (source line 27). -/
def COURSE_HEIGHT : ℕ := 300

/-- Panel size in cm, from SpheroRacer.__init__ (source line 28). -/
def PANEL_SIZE : ℕ := 50

/-- Commanded speed for straight segments, from SpheroRacer.__init__ (source line 31). -/
def STRAIGHT_SPEED : ℝ := 80

/-- Commanded speed for turn segments, from SpheroRacer.__init__ (source line 32). -/
def TURN_SPEED : ℝ := 40

/-- Medium approach speed, from SpheroRacer.__init__ (source line 33); unused by the planner. -/
def APPROACH_SPEED : ℝ := 60

/-- A waypoint of the course: position in cm and heading in degrees.
Mirrors the (x, y, heading) tuples of SpheroRacer.waypoints. -/
structure Waypoint where
  x : ℝ
  y : ℝ
  heading : ℝ

/-- The fixed clockwise course, from SpheroRacer.__init__ (source lines 37 to 56). -/
def waypoints : List Waypoint :=
  [⟨200, 250, 0⟩, ⟨450, 250, 0⟩, ⟨450, 250, 90⟩, ⟨450, 50, 90⟩,
   ⟨450, 50, 180⟩, ⟨350, 50, 180⟩, ⟨350, 50, 270⟩, ⟨350, 150, 270⟩,
   ⟨350, 150, 180⟩, ⟨150, 150, 180⟩, ⟨150, 150, 90⟩, ⟨150, 50, 90⟩,
   ⟨150, 50, 180⟩, ⟨50, 50, 180⟩, ⟨50, 50, 270⟩, ⟨50, 250, 270⟩,
   ⟨50, 250, 0⟩, ⟨250, 250, 0⟩]

/-- Euclidean distance between two points, from SpheroRacer.calculate_distance
(source lines 132 to 136): sqrt(dx*dx + dy*dy). -/
noncomputable def calculate_distance (start_pos end_pos : ℝ × ℝ) : ℝ :=
  Real.sqrt ((end_pos.1 - start_pos.1) * (end_pos.1 - start_pos.1) +
    (end_pos.2 - start_pos.2) * (end_pos.2 - start_pos.2))

/-- The three segment kinds distinguished by execute_segment. -/
inductive SegmentClassification
  | TurnInPlace
  | Turn
  | Straight
deriving DecidableEq

/-- The plan execute_segment derives for a segment: its classification,
the movement speed it commands (0 for a turn in place, where no speed
command is issued at all), how long it holds the command, and the heading
it commands. -/
structure SegmentPlan where
  classification : SegmentClassification
  commandedSpeed : ℝ
  holdDuration : ℝ
  commandedHeading : ℝ

/-- The planning logic of execute_segment (source lines 161 to 175):
distance below 1 cm means turn in place (hold 0.5 s, no movement speed);
otherwise a heading change of more than 45 degrees is a turn at
TURN_SPEED held for distance / (TURN_SPEED * 0.6), and anything else is
a straight at STRAIGHT_SPEED held for distance / (STRAIGHT_SPEED * 0.8). -/
noncomputable def plan_segment (s e : Waypoint) : SegmentPlan :=
  if calculate_distance (s.x, s.y) (e.x, e.y) < 1 then
    ⟨SegmentClassification.TurnInPlace, 0, 0.5, e.heading⟩
  else if |e.heading - s.heading| > 45 then
    ⟨SegmentClassification.Turn, TURN_SPEED,
      calculate_distance (s.x, s.y) (e.x, e.y) / (TURN_SPEED * 0.6), e.heading⟩
  else
    ⟨SegmentClassification.Straight, STRAIGHT_SPEED,
      calculate_distance (s.x, s.y) (e.x, e.y) / (STRAIGHT_SPEED * 0.8), e.heading⟩

/-- Claim C1: for consecutive waypoints closer than the 1 cm epsilon the
segment is classified TurnInPlace with commanded speed 0, hold duration
0.5 s, and commanded heading equal to the next waypoint's heading. -/
theorem C1_turn_in_place_plan (s e : Waypoint)
    (h : calculate_distance (s.x, s.y) (e.x, e.y) < 1) :
    plan_segment s e = ⟨SegmentClassification.TurnInPlace, 0, 0.5, e.heading⟩ := by
  unfold plan_segment
  rw [if_pos h]

/-- Witness for C1 at the spec scenario (100,0,0) to (100,0,90). -/
theorem C1_turn_in_place_plan_witness :
    calculate_distance (100, 0) (100, 0) < 1 ∧
    plan_segment ⟨100, 0, 0⟩ ⟨100, 0, 90⟩ =
      ⟨SegmentClassification.TurnInPlace, 0, 0.5, 90⟩ := by
  have h : calculate_distance (100, 0) (100, 0) < 1 := by
    unfold calculate_distance
    norm_num
  exact ⟨h, C1_turn_in_place_plan ⟨100, 0, 0⟩ ⟨100, 0, 90⟩ h⟩

/-- Claim C2: for consecutive waypoints at least 1 cm apart whose heading
delta exceeds 45 degrees, the segment is classified Turn at TURN_SPEED
and held for distance / (TURN_SPEED * 0.6). -/
theorem C2_turn_plan (s e : Waypoint)
    (h1 : ¬ calculate_distance (s.x, s.y) (e.x, e.y) < 1)
    (h2 : |e.heading - s.heading| > 45) :
    plan_segment s e = ⟨SegmentClassification.Turn, TURN_SPEED,
      calculate_distance (s.x, s.y) (e.x, e.y) / (TURN_SPEED * 0.6), e.heading⟩ := by
  unfold plan_segment
  rw [if_neg h1, if_pos h2]

/-- Witness for C2 at the spec scenario (50,0,180) to (150,0,270):
distance 100 and heading delta 90. -/
theorem C2_turn_plan_witness :
    ¬ calculate_distance (50, 0) (150, 0) < 1 ∧
    |(270 : ℝ) - 180| > 45 ∧
    plan_segment ⟨50, 0, 180⟩ ⟨150, 0, 270⟩ =
      ⟨SegmentClassification.Turn, TURN_SPEED,
        calculate_distance (50, 0) (150, 0) / (TURN_SPEED * 0.6), 270⟩ := by
  have hd : calculate_distance (50, 0) (150, 0) = 100 := by
    unfold calculate_distance
    have h1 : ((150 : ℝ) - 50) * (150 - 50) + (0 - 0) * (0 - 0) = 100 * 100 := by norm_num
    rw [h1, Real.sqrt_mul_self (by norm_num : (0 : ℝ) ≤ 100)]
  have h1 : ¬ calculate_distance (50, 0) (150, 0) < 1 := by rw [hd]; norm_num
  have h2 : |(270 : ℝ) - 180| > 45 := by rw [abs_of_nonneg (by norm_num)]; norm_num
  exact ⟨h1, h2, C2_turn_plan ⟨50, 0, 180⟩ ⟨150, 0, 270⟩ h1 h2⟩

/-- Claim C3: for consecutive waypoints at least 1 cm apart with heading
delta at most 45 degrees, the segment is Straight at STRAIGHT_SPEED held
for distance / (STRAIGHT_SPEED * 0.8); in particular (0,0,0) to (100,0,0)
has distance 100 and hold duration 1.5625 s. -/
theorem C3_straight_plan :
    (∀ s e : Waypoint, ¬ calculate_distance (s.x, s.y) (e.x, e.y) < 1 →
      ¬ |e.heading - s.heading| > 45 →
      plan_segment s e = ⟨SegmentClassification.Straight, STRAIGHT_SPEED,
        calculate_distance (s.x, s.y) (e.x, e.y) / (STRAIGHT_SPEED * 0.8), e.heading⟩) ∧
    calculate_distance (0, 0) (100, 0) = 100 ∧
    plan_segment ⟨0, 0, 0⟩ ⟨100, 0, 0⟩ =
      ⟨SegmentClassification.Straight, STRAIGHT_SPEED, 1.5625, 0⟩ := by
  have hgen : ∀ s e : Waypoint, ¬ calculate_distance (s.x, s.y) (e.x, e.y) < 1 →
      ¬ |e.heading - s.heading| > 45 →
      plan_segment s e = ⟨SegmentClassification.Straight, STRAIGHT_SPEED,
        calculate_distance (s.x, s.y) (e.x, e.y) / (STRAIGHT_SPEED * 0.8), e.heading⟩ := by
    intro s e h1 h2
    unfold plan_segment
    rw [if_neg h1, if_neg h2]
  have hd : calculate_distance (0, 0) (100, 0) = 100 := by
    unfold calculate_distance
    have h1 : ((100 : ℝ) - 0) * (100 - 0) + (0 - 0) * (0 - 0) = 100 * 100 := by norm_num
    rw [h1, Real.sqrt_mul_self (by norm_num : (0 : ℝ) ≤ 100)]
  have h1 : ¬ calculate_distance (0, 0) (100, 0) < 1 := by rw [hd]; norm_num
  have h2 : ¬ |(0 : ℝ) - 0| > 45 := by rw [sub_self, abs_zero]; norm_num
  have hp := hgen ⟨0, 0, 0⟩ ⟨100, 0, 0⟩ h1 h2
  refine ⟨hgen, hd, ?_⟩
  rw [hp, hd]
  have : (100 : ℝ) / (STRAIGHT_SPEED * 0.8) = 1.5625 := by
    unfold STRAIGHT_SPEED
    norm_num
  rw [this]

/-- Witness for C3 at the spec scenario (0,0,0) to (100,0,0). -/
theorem C3_straight_plan_witness :
    ¬ calculate_distance (0, 0) (100, 0) < 1 ∧
    ¬ |(0 : ℝ) - 0| > 45 ∧
    plan_segment ⟨0, 0, 0⟩ ⟨100, 0, 0⟩ =
      ⟨SegmentClassification.Straight, STRAIGHT_SPEED,
        calculate_distance (0, 0) (100, 0) / (STRAIGHT_SPEED * 0.8), 0⟩ := by
  have hd : calculate_distance (0, 0) (100, 0) = 100 := by
    unfold calculate_distance
    have h1 : ((100 : ℝ) - 0) * (100 - 0) + (0 - 0) * (0 - 0) = 100 * 100 := by norm_num
    rw [h1, Real.sqrt_mul_self (by norm_num : (0 : ℝ) ≤ 100)]
  have h1 : ¬ calculate_distance (0, 0) (100, 0) < 1 := by rw [hd]; norm_num
  have h2 : ¬ |(0 : ℝ) - 0| > 45 := by rw [sub_self, abs_zero]; norm_num
  exact ⟨h1, h2, C3_straight_plan.1 ⟨0, 0, 0⟩ ⟨100, 0, 0⟩ h1 h2⟩

/-- One actuation or wait action issued by the racer, in program order.
setHeading, setSpeed and setMainLed are the vendor API calls; sleepFor
records a blocking wait of the given number of seconds. -/
inductive Cmd
  | setHeading (h : ℝ)
  | setSpeed (s : ℝ)
  | setMainLed (r g b : ℕ)
  | sleepFor (t : ℝ)

/-- Fault injection for the device calls of one segment: ok means no call
raises, failFirst means the first API call of the segment raises a
DeviceError, failSecond means the second one does (a turn-in-place
segment has only one API call, so failSecond does not fire there). -/
inductive SegFault
  | ok
  | failFirst
  | failSecond
deriving DecidableEq

/-- Result of executing one segment: whether execute_segment returned
True, the commands it issued, and the distance it added to total_distance. -/
structure SegOut where
  ok : Bool
  trace : List Cmd
  dist : ℝ

/-- SpheroRacer.move_to_waypoint (source lines 138 to 151): set_heading,
a 0.1 s settling sleep, then set_speed, all inside a try block that
swallows a DeviceError and returns False after printing. -/
def move_to_waypoint (heading speed : ℝ) (f : SegFault) : Bool × List Cmd :=
  match f with
  | SegFault.ok => (true, [Cmd.setHeading heading, Cmd.sleepFor 0.1, Cmd.setSpeed speed])
  | SegFault.failFirst => (false, [])
  | SegFault.failSecond => (false, [Cmd.setHeading heading, Cmd.sleepFor 0.1])

/-- SpheroRacer.execute_segment (source lines 153 to 190).  A distance
below 1 cm turns in place: one set_heading call (which a fault makes
raise, caught at line 188, returning False) and a 0.5 s sleep.  Otherwise
the movement branch calls move_to_waypoint but DISCARDS its boolean
result (source line 180), so it always sleeps the full duration, adds
the distance and returns True even when the device raised inside
move_to_waypoint. -/
noncomputable def execute_segment (s e : Waypoint) (f : SegFault) : SegOut :=
  if calculate_distance (s.x, s.y) (e.x, e.y) < 1 then
    match f with
    | SegFault.failFirst => ⟨false, [], 0⟩
    | _ => ⟨true, [Cmd.setHeading e.heading, Cmd.sleepFor 0.5], 0⟩
  else if |e.heading - s.heading| > 45 then
    ⟨true, (move_to_waypoint e.heading TURN_SPEED f).2 ++
      [Cmd.sleepFor (calculate_distance (s.x, s.y) (e.x, e.y) / (TURN_SPEED * 0.6))],
      calculate_distance (s.x, s.y) (e.x, e.y)⟩
  else
    ⟨true, (move_to_waypoint e.heading STRAIGHT_SPEED f).2 ++
      [Cmd.sleepFor (calculate_distance (s.x, s.y) (e.x, e.y) / (STRAIGHT_SPEED * 0.8))],
      calculate_distance (s.x, s.y) (e.x, e.y)⟩

/-- Result of a run: whether it reported success, the command trace, the
accumulated total_distance, and how many segments were started. -/
structure RunOut where
  ok : Bool
  trace : List Cmd
  dist : ℝ
  attempted : ℕ

/-- The segment loop of SpheroRacer.run_race (source lines 209 to 224):
execute each consecutive pair in order, sleep 0.2 s after a successful
segment, and return False as soon as execute_segment does.  The fault
oracle is indexed by segment number. -/
noncomputable def run_loop : List Waypoint → (ℕ → SegFault) → ℕ → RunOut
  | a :: b :: rest, f, i =>
    let r := execute_segment a b (f i)
    if r.ok then
      let rr := run_loop (b :: rest) f (i + 1)
      ⟨rr.ok, r.trace ++ Cmd.sleepFor 0.2 :: rr.trace, r.dist + rr.dist, 1 + rr.attempted⟩
    else
      ⟨false, r.trace, r.dist, 1⟩
  | _, _, _ => ⟨true, [], 0, 0⟩

/-- SpheroRacer.run_race (source lines 192 to 246): refuse to run while
uncalibrated (returning False before any command), otherwise show the
racing LED, run the segment loop, and on success stop at the finish line
and show the victory LED.  Faults are injected only into segment device
calls, so the except branch of run_race itself is never taken here. -/
noncomputable def run_race (calibrated : Bool) (wps : List Waypoint) (f : ℕ → SegFault) :
    RunOut :=
  if calibrated then
    let r := run_loop wps f 0
    if r.ok then
      ⟨true, Cmd.setMainLed 255 0 255 :: r.trace ++
        [Cmd.setSpeed 0, Cmd.setMainLed 255 215 0], r.dist, r.attempted⟩
    else
      ⟨false, Cmd.setMainLed 255 0 255 :: r.trace, r.dist, r.attempted⟩
  else ⟨false, [], 0, 0⟩

/-- SpheroRacer.cleanup (source lines 258 to 266): a final stop command
and switching the LED off. -/
def cleanup_cmds : List Cmd := [Cmd.setSpeed 0, Cmd.setMainLed 0 0 0]

/-- The race portion of main (source lines 304 and 323 to 324): run_race
followed unconditionally by cleanup, which the finally block attempts no
matter how the run ended. -/
noncomputable def main_run (calibrated : Bool) (wps : List Waypoint) (f : ℕ → SegFault) :
    RunOut :=
  let r := run_race calibrated wps f
  ⟨r.ok, r.trace ++ cleanup_cmds, r.dist, r.attempted⟩

/-- A fault-free segment execution reports success. -/
theorem execute_segment_ok (s e : Waypoint) :
    (execute_segment s e SegFault.ok).ok = true := by
  unfold execute_segment
  split
  · rfl
  · split <;> rfl

/-- The distance a segment adds to total_distance: 0 below the 1 cm
epsilon, the Euclidean distance otherwise, whatever the fault. -/
theorem execute_segment_dist (s e : Waypoint) (f : SegFault) :
    (execute_segment s e f).dist =
      if calculate_distance (s.x, s.y) (e.x, e.y) < 1 then 0
      else calculate_distance (s.x, s.y) (e.x, e.y) := by
  unfold execute_segment
  split
  · split <;> rfl
  · split <;> rfl

/-- Modelled from the spec: the sum of the Euclidean distances of all
segments of a course, a TurnInPlace segment (distance below the 1 cm
epsilon) contributing 0.  Compared against the total_distance the code
accumulates. -/
noncomputable def courseSum : List Waypoint → ℝ
  | a :: b :: rest =>
    (if calculate_distance (a.x, a.y) (b.x, b.y) < 1 then 0
     else calculate_distance (a.x, a.y) (b.x, b.y)) + courseSum (b :: rest)
  | _ => 0

/-- A run whose every segment fault oracle entry is ok reports success. -/
theorem run_loop_all_ok (wps : List Waypoint) : ∀ (f : ℕ → SegFault) (i : ℕ),
    (∀ j, f j = SegFault.ok) → (run_loop wps f i).ok = true := by
  induction wps with
  | nil => intro f i _; rfl
  | cons a tail ih =>
    cases tail with
    | nil => intro f i _; rfl
    | cons b rest =>
      intro f i hf
      have h : (execute_segment a b (f i)).ok = true := by
        rw [hf i]; exact execute_segment_ok a b
      simp only [run_loop, h, if_true]
      exact ih f (i + 1) hf

/-- On a successful pass the accumulated distance is the course sum. -/
theorem run_loop_dist (wps : List Waypoint) : ∀ (f : ℕ → SegFault) (i : ℕ),
    (run_loop wps f i).ok = true → (run_loop wps f i).dist = courseSum wps := by
  induction wps with
  | nil => intro f i _; rfl
  | cons a tail ih =>
    cases tail with
    | nil => intro f i _; rfl
    | cons b rest =>
      intro f i hok
      cases h : (execute_segment a b (f i)).ok with
      | false =>
        simp only [run_loop, h, Bool.false_eq_true, if_false] at hok
      | true =>
        simp only [run_loop, h, if_true] at hok ⊢
        rw [execute_segment_dist, ih f (i + 1) hok]
        rfl

/-- Claim C5: whatever the calibration state, the course and the fault
pattern, the combined trace of the run and its finally block ends with
the cleanup actions: a stop command followed by the indicator reset, so
a terminal stop is issued after the last executed segment regardless of
whether the run succeeded or aborted. -/
theorem C5_cleanup_always (c : Bool) (wps : List Waypoint) (f : ℕ → SegFault) :
    ∃ p, (main_run c wps f).trace = p ++ [Cmd.setSpeed 0, Cmd.setMainLed 0 0 0] :=
  ⟨(run_race c wps f).trace, rfl⟩

/-- Claim C6: running while uncalibrated fails immediately and issues no
command at all, in particular no set heading and no set speed. -/
theorem C6_not_calibrated (wps : List Waypoint) (f : ℕ → SegFault) :
    (run_race false wps f).ok = false ∧ (run_race false wps f).trace = [] := by
  constructor <;> rfl

/-- Claim C7: after a successful full run, total_distance is the sum of
the per-segment Euclidean distances, TurnInPlace segments contributing 0. -/
theorem C7_total_distance (wps : List Waypoint) (f : ℕ → SegFault)
    (h : (run_race true wps f).ok = true) :
    (run_race true wps f).dist = courseSum wps := by
  cases hr : (run_loop wps f 0).ok with
  | false =>
    simp only [run_race, if_true, hr, Bool.false_eq_true, if_false] at h
  | true =>
    simp only [run_race, if_true, hr]
    exact run_loop_dist wps f 0 hr

/-- Witness for C7: a fault-free run over a straight segment followed by
a turn in place accumulates exactly the straight segment's distance. -/
theorem C7_total_distance_witness :
    (run_race true [⟨0, 0, 0⟩, ⟨100, 0, 0⟩, ⟨100, 0, 90⟩] (fun _ => SegFault.ok)).ok = true ∧
    (run_race true [⟨0, 0, 0⟩, ⟨100, 0, 0⟩, ⟨100, 0, 90⟩] (fun _ => SegFault.ok)).dist =
      courseSum [⟨0, 0, 0⟩, ⟨100, 0, 0⟩, ⟨100, 0, 90⟩] := by
  have hloop : (run_loop [⟨0, 0, 0⟩, ⟨100, 0, 0⟩, ⟨100, 0, 90⟩]
      (fun _ => SegFault.ok) 0).ok = true :=
    run_loop_all_ok _ _ 0 (fun _ => rfl)
  have hok : (run_race true [⟨0, 0, 0⟩, ⟨100, 0, 0⟩, ⟨100, 0, 90⟩]
      (fun _ => SegFault.ok)).ok = true := by
    simp only [run_race, if_true, hloop]
  exact ⟨hok, C7_total_distance _ _ hok⟩

/-- The race result computation of run_race (source lines 230 to 231):
average speed is total distance over race time when the race time is
positive, and 0 otherwise. -/
noncomputable def average_speed (total_distance race_time : ℝ) : ℝ :=
  if race_time > 0 then total_distance / race_time else 0

/-- Claim C8: the result computation is the pure function giving 0 when
the elapsed time is 0 and total_distance / elapsed_time when it is
positive. -/
theorem C8_average_speed (d t : ℝ) :
    (t = 0 → average_speed d t = 0) ∧ (t > 0 → average_speed d t = d / t) := by
  constructor
  · intro h
    unfold average_speed
    rw [if_neg]
    rw [h]
    exact lt_irrefl 0
  · intro h
    unfold average_speed
    rw [if_pos h]

/-- Witness for C8 at elapsed times 0 and 2. -/
theorem C8_average_speed_witness :
    average_speed 10 0 = 0 ∧ (0 : ℝ) < 2 ∧ average_speed 10 2 = 10 / 2 :=
  ⟨(C8_average_speed 10 0).1 rfl, by norm_num, (C8_average_speed 10 2).2 (by norm_num)⟩

/-- Claim C4 evaluated at its failing input: over the straight course
(0,0,0), (100,0,0), (200,0,0) with a DeviceError raised by set_speed
inside move_to_waypoint during segment 0, the run does NOT abort: both
segments are started and run_race still reports success, because
execute_segment discards move_to_waypoint's False (source line 180).
The claim says the sequencer aborts before segment 1. -/
theorem C4_device_error_run_continues :
    (run_race true [⟨0, 0, 0⟩, ⟨100, 0, 0⟩, ⟨200, 0, 0⟩]
      (fun i => if i = 0 then SegFault.failSecond else SegFault.ok)).ok = true ∧
    (run_race true [⟨0, 0, 0⟩, ⟨100, 0, 0⟩, ⟨200, 0, 0⟩]
      (fun i => if i = 0 then SegFault.failSecond else SegFault.ok)).attempted = 2 := by
  have d01 : calculate_distance (0, 0) (100, 0) = 100 := by
    unfold calculate_distance
    have h : ((100 : ℝ) - 0) * (100 - 0) + (0 - 0) * (0 - 0) = 100 * 100 := by norm_num
    rw [h, Real.sqrt_mul_self (by norm_num : (0 : ℝ) ≤ 100)]
  have d12 : calculate_distance (100, 0) (200, 0) = 100 := by
    unfold calculate_distance
    have h : ((200 : ℝ) - 100) * (200 - 100) + (0 - 0) * (0 - 0) = 100 * 100 := by norm_num
    rw [h, Real.sqrt_mul_self (by norm_num : (0 : ℝ) ≤ 100)]
  have e01 : (execute_segment ⟨0, 0, 0⟩ ⟨100, 0, 0⟩ SegFault.failSecond).ok = true := by
    unfold execute_segment
    rw [if_neg (by rw [d01]; norm_num)]
    rw [if_neg (by norm_num)]
  have e12 : (execute_segment ⟨100, 0, 0⟩ ⟨200, 0, 0⟩ SegFault.ok).ok = true :=
    execute_segment_ok _ _
  have hloop : (run_loop [⟨0, 0, 0⟩, ⟨100, 0, 0⟩, ⟨200, 0, 0⟩]
      (fun i => if i = 0 then SegFault.failSecond else SegFault.ok) 0).ok = true ∧
      (run_loop [⟨0, 0, 0⟩, ⟨100, 0, 0⟩, ⟨200, 0, 0⟩]
      (fun i => if i = 0 then SegFault.failSecond else SegFault.ok) 0).attempted = 2 := by
    simp only [run_loop, show ((fun i => if i = 0 then SegFault.failSecond
        else SegFault.ok) 0) = SegFault.failSecond from rfl,
      show ((fun i => if i = 0 then SegFault.failSecond
        else SegFault.ok) 1) = SegFault.ok from rfl, e01, e12, if_true]
    exact ⟨trivial, trivial⟩
  constructor
  · simp only [run_race, if_true, hloop.1]
  · simp only [run_race, if_true, hloop.1]
    exact hloop.2

/-- The exit code of the script entry block (source lines 326 to 335):
sys.exit(1) fires only when fewer than four argv entries are given;
otherwise main is called, its boolean result is DISCARDED, and the
interpreter exits normally with code 0 whatever the run's outcome. -/
def script_exit (argc : ℕ) (run_result : Bool) : ℕ :=
  if argc < 4 then 1 else 0

/-- Claim C9 refuted at a concrete input: a failed run (run_result false)
with enough arguments exits with code 0, not 1 as the claim requires. -/
theorem C9_exit_code_counterexample :
    script_exit 4 false = 0 ∧ script_exit 4 false ≠ 1 := by
  constructor <;> decide

/-- Claim C9 amended: the process exits with code 1 exactly when fewer
than four argv entries are supplied; with enough arguments it exits with
code 0 regardless of whether the run succeeded or failed. -/
theorem C9_exit_code_amended (argc : ℕ) (b : Bool) :
    (argc < 4 → script_exit argc b = 1) ∧ (¬ argc < 4 → script_exit argc b = 0) := by
  constructor
  · intro h
    unfold script_exit
    rw [if_pos h]
  · intro h
    unfold script_exit
    rw [if_neg h]

/-- Witness for the amended C9 at argc 3 (usage error) and argc 5
(failed run, exit 0). -/
theorem C9_exit_code_amended_witness :
    script_exit 3 true = 1 ∧ script_exit 5 false = 0 :=
  ⟨(C9_exit_code_amended 3 true).1 (by decide), (C9_exit_code_amended 5 false).2 (by decide)⟩

/-- The device and I/O steps of calibrate_heading in program order
(source lines 110 to 121): the red LED, the stop command while aiming,
the blocking wait for operator input, the heading reference reset, the
zero heading command, and the green LED. -/
inductive CalStep
  | ledRed
  | speedZero
  | waitInput
  | resetAim
  | headingZero
  | ledGreen
deriving DecidableEq

/-- The calibration step sequence, in source order. -/
def calSteps : List CalStep :=
  [CalStep.ledRed, CalStep.speedZero, CalStep.waitInput,
   CalStep.resetAim, CalStep.headingZero, CalStep.ledGreen]

/-- Run a list of calibration steps against a per-call fault oracle:
the first failing call raises, nothing after it executes, and the
whole try block reports failure. -/
def runCalSteps : List CalStep → (ℕ → Bool) → ℕ → Bool × List CalStep
  | [], _, _ => (true, [])
  | s :: rest, ok, i =>
    if ok i then
      let r := runCalSteps rest ok (i + 1)
      (r.1, s :: r.2)
    else (false, [])

/-- Outcome of calibrate_heading: its boolean result, the calibrated
flag afterwards, and which steps actually executed. -/
structure CalOut where
  ok : Bool
  calibrated : Bool
  steps : List CalStep

/-- SpheroRacer.calibrate_heading (source lines 101 to 130): run the six
device and I/O steps inside a try block; only when all succeed is the
calibrated flag set to True (source line 125) and True returned, while
any raising call lands in the except branch, which returns False leaving
the flag at its prior value. -/
def calibrate_heading (calibrated0 : Bool) (ok : ℕ → Bool) : CalOut :=
  let r := runCalSteps calSteps ok 0
  if r.1 then ⟨true, true, r.2⟩ else ⟨false, calibrated0, r.2⟩

/-- A successful pass over the calibration steps executed all of them. -/
theorem runCalSteps_all (l : List CalStep) : ∀ (ok : ℕ → Bool) (i : ℕ),
    (runCalSteps l ok i).1 = true → (runCalSteps l ok i).2 = l := by
  induction l with
  | nil => intro ok i _; rfl
  | cons s rest ih =>
    intro ok i h
    cases hok : ok i with
    | false => simp only [runCalSteps, hok, Bool.false_eq_true, if_false] at h
    | true =>
      simp only [runCalSteps, hok, if_true] at h ⊢
      rw [ih ok (i + 1) h]

/-- Claim C10: calibration is atomic for the calibrated flag.  When any
call fails the step reports failure and the flag keeps its prior value,
and the flag can only become true after the heading reference reset
actually executed. -/
theorem C10_calibration_atomic (calibrated0 : Bool) (ok : ℕ → Bool) :
    ((calibrate_heading calibrated0 ok).ok = false →
      (calibrate_heading calibrated0 ok).calibrated = calibrated0) ∧
    ((calibrate_heading calibrated0 ok).calibrated = true →
      calibrated0 = true ∨ CalStep.resetAim ∈ (calibrate_heading calibrated0 ok).steps) := by
  cases hr : (runCalSteps calSteps ok 0).1 with
  | false =>
    constructor
    · intro _
      simp only [calibrate_heading, hr, Bool.false_eq_true, if_false]
    · intro h
      simp only [calibrate_heading, hr, Bool.false_eq_true, if_false] at h
      exact Or.inl h
  | true =>
    constructor
    · intro h
      simp only [calibrate_heading, hr, if_true] at h
      exact Bool.noConfusion h
    · intro _
      right
      simp only [calibrate_heading, hr, if_true]
      rw [runCalSteps_all calSteps ok 0 hr]
      simp [calSteps]

/-- Witness for C10: the set_heading call after the aim reset fails, so
calibration reports failure and the flag stays false. -/
theorem C10_calibration_atomic_witness :
    (calibrate_heading false (fun i => !(i == 4))).ok = false ∧
    (calibrate_heading false (fun i => !(i == 4))).calibrated = false :=
  ⟨by decide, (C10_calibration_atomic false (fun i => !(i == 4))).1 (by decide)⟩

end AutomaticCircuit
